import Mathlib

/-!
Verification of `bonzai-burn` (`src/test_repo/hello.py`).

The script is a single linear program:

  issues = ["Issue 1", "Issue 2"]
  if issues:
      response = {"continue": False,
                  "stopReason": "⚠️ BONZAI BURN FOUND ISSUES:\n"
                                + "\n".join(f"• {i}" for i in issues)}
      print(json.dumps(response))
      sys.exit(2)
  else:
      sys.exit(0)

We embed the JSON values the script can build, the string join, and the
run of the script as a pure function from an issues list to the list of
JSON values printed on standard output together with the exit code.
-/

namespace BonzaiBurn

/-- JSON values, the shape of data Python's `json.dumps` serializes here:
booleans, strings, arrays, and objects (ordered key/value lists). -/
inductive Json where
  | bool (b : Bool)
  | str (s : String)
  | arr (elems : List Json)
  | obj (fields : List (String × Json))

/-- Python's `sep.join(xs)`: concatenate the strings of `xs`, inserting
`sep` between consecutive elements (empty result on an empty list). -/
def strJoin (sep : String) : List String → String
  | [] => ""
  | [x] => x
  | x :: y :: xs => x ++ sep ++ strJoin sep (y :: xs)

/-- `hello.py` line 4: the hardcoded issues list. -/
def issues : List String := ["Issue 1", "Issue 2"]

/-- `hello.py` line 9: the `stopReason` string built from an issues list:
the header, a newline, then `"\n".join(f"• {i}" for i in issues)`. -/
def stopReason (iss : List String) : String :=
  "⚠️ BONZAI BURN FOUND ISSUES:\n" ++ strJoin "\n" (iss.map (fun i => "• " ++ i))

/-- `hello.py` lines 7-10: the `response` dict built in the blocking branch. -/
def response (iss : List String) : Json :=
  Json.obj [("continue", Json.bool false), ("stopReason", Json.str (stopReason iss))]

/-- Observable outcome of one run: the JSON values printed on standard
output (one entry per `print`) and the process exit code. -/
structure RunResult where
  stdout : List Json
  exitCode : Nat

/-- `hello.py` lines 6-14: run the script on an issues list.  `if issues:`
takes the blocking branch exactly when the list is non-empty. -/
def run (iss : List String) : RunResult :=
  if iss ≠ [] then ⟨[response iss], 2⟩ else ⟨[], 0⟩

/-- The script as actually shipped: it consults neither standard input nor
the environment, and its issues list is the hardcoded constant. -/
def runProgram (_stdin : List String) (_env : List (String × String)) : RunResult :=
  run issues

/-- The one run the shipped script can perform. -/
def programRun : RunResult :=
  run issues

/-- Every member of a joined list occurs contiguously in the join. -/
theorem strJoin_mem (sep x : String) (l : List String) (hx : x ∈ l) :
    ∃ p q, strJoin sep l = p ++ x ++ q := by
  induction l with
  | nil => cases hx
  | cons y ys ih =>
    rcases List.mem_cons.mp hx with h | h
    · subst h
      cases ys with
      | nil => exact ⟨"", "", by simp [strJoin]⟩
      | cons z zs =>
        exact ⟨"", sep ++ strJoin sep (z :: zs), by simp [strJoin, String.append_assoc]⟩
    · cases ys with
      | nil => cases h
      | cons z zs =>
        obtain ⟨p, q, hpq⟩ := ih h
        refine ⟨y ++ sep ++ p, q, ?_⟩
        simp [strJoin, hpq, String.append_assoc]

/-- Joining a list with a non-empty tail peels off the head. -/
theorem strJoin_cons_of_ne (sep a : String) (l : List String) (h : l ≠ []) :
    strJoin sep (a :: l) = a ++ sep ++ strJoin sep l := by
  cases l with
  | nil => exact absurd rfl h
  | cons b bs => rfl

/-- The header literal splits off its trailing newline. -/
theorem header_split :
    ("⚠️ BONZAI BURN FOUND ISSUES:\n" : String) =
      "⚠️ BONZAI BURN FOUND ISSUES:" ++ "\n" := by
  decide

/-- Every issue of the list occurs, bulleted, inside the stop reason. -/
theorem stopReason_mentions (iss : List String) (i : String) (hi : i ∈ iss) :
    ∃ p q, stopReason iss = p ++ ("• " ++ i) ++ q := by
  obtain ⟨p, q, hpq⟩ :=
    strJoin_mem "\n" ("• " ++ i) (iss.map (fun j => "• " ++ j))
      (List.mem_map_of_mem _ hi)
  exact ⟨"⚠️ BONZAI BURN FOUND ISSUES:\n" ++ p, q,
    by simp [stopReason, hpq, String.append_assoc]⟩

/-- Claim C1: for every issues list, the program exits with status code 2
when the list is non-empty and with status code 0 when the list is empty;
the conditional in `run` is total, so no other exit path exists. -/
theorem exit_code_spec (iss : List String) :
    (run iss).exitCode = if iss = [] then 0 else 2 := by
  by_cases h : iss = [] <;> simp [run, h]

/-- Claim C2 (counterexample): on the shipped issues list the program does
not write a JSON-encoded list of the issue strings to standard output. -/
theorem stdout_not_json_list :
    (run ["Issue 1", "Issue 2"]).stdout ≠
      [Json.arr [Json.str "Issue 1", Json.str "Issue 2"]] := by
  simp [run, response]

/-- Claim C2 (amended): when the issues list is non-empty, what the program
writes to standard output is a single JSON-encoded object whose boolean
`continue` field is `false` and whose `stopReason` string lists the issue
strings, each bulleted. -/
theorem stdout_json_object_of_block (iss : List String) (h : iss ≠ []) :
    ∃ msg,
      (run iss).stdout =
        [Json.obj [("continue", Json.bool false), ("stopReason", Json.str msg)]] ∧
      ∀ i ∈ iss, ∃ p q, msg = p ++ ("• " ++ i) ++ q := by
  refine ⟨stopReason iss, ?_, ?_⟩
  · simp [run, h, response]
  · exact fun i hi => stopReason_mentions iss i hi

/-- Witness for the amended claim C2 at the shipped issues list. -/
theorem stdout_json_object_of_block_witness :
    (["Issue 1", "Issue 2"] : List String) ≠ [] ∧
      ∃ msg,
        (run ["Issue 1", "Issue 2"]).stdout =
          [Json.obj [("continue", Json.bool false), ("stopReason", Json.str msg)]] ∧
        ∀ i ∈ (["Issue 1", "Issue 2"] : List String), ∃ p q, msg = p ++ ("• " ++ i) ++ q :=
  ⟨by decide, stdout_json_object_of_block ["Issue 1", "Issue 2"] (by decide)⟩

/-- Claim C3: when the program blocks (issues list non-empty), the JSON
payload printed to standard output contains a boolean flag and a
human-readable multi-line message (it contains a newline) that lists every
issue in the issues list. -/
theorem blocking_payload_contents (iss : List String) (h : iss ≠ []) :
    ∃ flag msg,
      (run iss).stdout =
        [Json.obj [("continue", Json.bool flag), ("stopReason", Json.str msg)]] ∧
      (∃ p q, msg = p ++ "\n" ++ q) ∧
      ∀ i ∈ iss, ∃ p q, msg = p ++ ("• " ++ i) ++ q := by
  refine ⟨false, stopReason iss, ?_, ?_, ?_⟩
  · simp [run, h, response]
  · exact ⟨"⚠️ BONZAI BURN FOUND ISSUES:",
      strJoin "\n" (iss.map (fun i => "• " ++ i)),
      by simp [stopReason, header_split, String.append_assoc]⟩
  · exact fun i hi => stopReason_mentions iss i hi

/-- Witness for claim C3 at the shipped issues list. -/
theorem blocking_payload_contents_witness :
    (["Issue 1", "Issue 2"] : List String) ≠ [] ∧
      ∃ flag msg,
        (run ["Issue 1", "Issue 2"]).stdout =
          [Json.obj [("continue", Json.bool flag), ("stopReason", Json.str msg)]] ∧
        (∃ p q, msg = p ++ "\n" ++ q) ∧
        ∀ i ∈ (["Issue 1", "Issue 2"] : List String), ∃ p q, msg = p ++ ("• " ++ i) ++ q :=
  ⟨by decide, blocking_payload_contents ["Issue 1", "Issue 2"] (by decide)⟩

/-- Claim C4: when the issues list is empty, the program exits with status
code 0 and writes nothing to standard output. -/
theorem allow_silent (iss : List String) (h : iss = []) :
    (run iss).stdout = [] ∧ (run iss).exitCode = 0 := by
  subst h
  exact ⟨rfl, rfl⟩

/-- Witness for claim C4 at the empty issues list. -/
theorem allow_silent_witness :
    ([] : List String) = [] ∧ (run []).stdout = [] ∧ (run []).exitCode = 0 :=
  ⟨rfl, allow_silent [] rfl⟩

/-- Claim C5: the issues list is the fixed constant `["Issue 1", "Issue 2"]`,
and the program run is a pure function of that constant, so no operation of
the program modifies it. -/
theorem issues_constant :
    issues = ["Issue 1", "Issue 2"] ∧ programRun = run ["Issue 1", "Issue 2"] :=
  ⟨rfl, rfl⟩

/-- Claim C6: on every run the exit status is one of exactly the two values
2 (block) or 0 (allow); the outcome is a pure function of the issues list
observable only through `stdout` and `exitCode`. -/
theorem exit_status_two_values (iss : List String) :
    (run iss).exitCode = 2 ∨ (run iss).exitCode = 0 := by
  by_cases h : iss = [] <;> simp [run, h]

/-- Claim C7: the program reads no input and keeps no persistent state, so
any two runs, whatever standard input and environment they see, produce
identical standard output and identical exit codes. -/
theorem deterministic_runs (s₁ s₂ : List String) (e₁ e₂ : List (String × String)) :
    runProgram s₁ e₁ = runProgram s₂ e₂ :=
  rfl

/-- Claim C8: the hardcoded issues list is non-empty, so every run of the
shipped program prints the JSON payload and exits with status code 2; the
allow branch (exit code 0) is unreachable. -/
theorem always_blocks :
    programRun.stdout = [response issues] ∧
      programRun.exitCode = 2 ∧ programRun.exitCode ≠ 0 := by
  refine ⟨?_, ?_, ?_⟩ <;> simp [programRun, run, issues]

/-- Claim C9: whenever the JSON payload is printed, its `stopReason` string
is the header line followed by one line `• <issue>` per issue, in the order
of the issues list, the lines joined by newlines. -/
theorem stopReason_line_structure (iss : List String) (h : iss ≠ []) :
    ∃ msg,
      (run iss).stdout =
        [Json.obj [("continue", Json.bool false), ("stopReason", Json.str msg)]] ∧
      msg = strJoin "\n"
        ("⚠️ BONZAI BURN FOUND ISSUES:" :: iss.map (fun i => "• " ++ i)) := by
  refine ⟨stopReason iss, by simp [run, h, response], ?_⟩
  have hmap : iss.map (fun i => "• " ++ i) ≠ [] := by
    simpa using h
  rw [strJoin_cons_of_ne "\n" _ _ hmap, stopReason, header_split,
    String.append_assoc]

/-- Witness for claim C9 at the shipped issues list. -/
theorem stopReason_line_structure_witness :
    (["Issue 1", "Issue 2"] : List String) ≠ [] ∧
      ∃ msg,
        (run ["Issue 1", "Issue 2"]).stdout =
          [Json.obj [("continue", Json.bool false), ("stopReason", Json.str msg)]] ∧
        msg = strJoin "\n"
          ("⚠️ BONZAI BURN FOUND ISSUES:" ::
            (["Issue 1", "Issue 2"] : List String).map (fun i => "• " ++ i)) :=
  ⟨by decide, stopReason_line_structure ["Issue 1", "Issue 2"] (by decide)⟩

/-- Claim C10: whenever the JSON payload is printed, it is an object with
exactly the two keys `continue` and `stopReason`, in that order, and the
`continue` field is the boolean `false`. -/
theorem payload_shape (iss : List String) (h : iss ≠ []) :
    ∃ fields,
      (run iss).stdout = [Json.obj fields] ∧
      fields.map Prod.fst = ["continue", "stopReason"] ∧
      ∃ msg, fields = [("continue", Json.bool false), ("stopReason", Json.str msg)] := by
  refine ⟨[("continue", Json.bool false),
    ("stopReason", Json.str (stopReason iss))], ?_, rfl, stopReason iss, rfl⟩
  simp [run, h, response]

/-- Witness for claim C10 at the shipped issues list. -/
theorem payload_shape_witness :
    (["Issue 1", "Issue 2"] : List String) ≠ [] ∧
      ∃ fields,
        (run ["Issue 1", "Issue 2"]).stdout = [Json.obj fields] ∧
        fields.map Prod.fst = ["continue", "stopReason"] ∧
        ∃ msg, fields = [("continue", Json.bool false), ("stopReason", Json.str msg)] :=
  ⟨by decide, payload_shape ["Issue 1", "Issue 2"] (by decide)⟩

end BonzaiBurn
